import Mathlib

/-!
Verification development for the credential-resolution and token-broker
subsystem of the API documentation console.

The definitions below are shallow embeddings of the TypeScript sources:
`src/auth/token.ts` (token broker), `src/lib/http.ts` (authenticated request
executor), `src/apiIdentity.ts` (request parameter resolver), and `server.ts`
(credential resolver and server-side token broker).  JavaScript strings are
modelled on the character list underlying a `String`; the in-memory `Map`
token cache is modelled as an association list with unique keys; network
calls are suspension points, so each fetch result enters as an explicit
oracle argument and the number of issued requests is reported in the result.
-/

namespace DocsProxy

/-! ### JavaScript string primitives -/

/-- Characters of a JavaScript string. -/
abbrev Str := List Char

/-- `s.includes(pat)` of JavaScript: `pat` occurs as a contiguous substring of `s`. -/
def strContains : Str → Str → Bool
  | s@(_ :: t), pat => pat.isPrefixOf s || strContains t pat
  | [], pat => pat.isEmpty

/-- One step of `s.replace(/pat/g, repl)`: scan left to right, replace each
non-overlapping occurrence.  The fuel argument is an upper bound on the number
of characters still to be scanned; every step consumes at least one character,
so with `fuel = s.length` the fuel never runs out. -/
def replaceAllFuel (pat repl : Str) : Nat → Str → Str
  | _, [] => []
  | 0, s => s
  | fuel + 1, c :: rest =>
    if pat ≠ [] ∧ pat.isPrefixOf (c :: rest) then
      repl ++ replaceAllFuel pat repl fuel (List.drop (pat.length - 1) rest)
    else
      c :: replaceAllFuel pat repl fuel rest

/-- `s.replace(/pat/g, repl)` of JavaScript for a literal nonempty pattern. -/
def replaceAllStr (pat repl s : Str) : Str :=
  replaceAllFuel pat repl s.length s

/-- `s.includes(pat)` on Lean strings. -/
def jsIncludes (s pat : String) : Bool :=
  strContains s.data pat.data

/-- `s.replace(/pat/g, repl)` on Lean strings. -/
def jsReplaceAll (s pat repl : String) : String :=
  ⟨replaceAllStr pat.data repl.data s.data⟩

/-- JavaScript `a || b` on possibly-undefined strings: `none` models
`undefined`, and the empty string is falsy. -/
def jsOrString (a b : Option String) : Option String :=
  match a with
  | some s => if s.isEmpty then b else some s
  | none => b

/-- JavaScript truthiness of a possibly-undefined string. -/
def jsTruthy : Option String → Bool
  | some s => !s.isEmpty
  | none => false

/-- JavaScript `a || d` with a string-literal default. -/
def jsOrDefault (a : Option String) (d : String) : String :=
  match a with
  | some s => if s.isEmpty then d else s
  | none => d

/-- `s.toLowerCase()` of JavaScript, character by character. -/
def jsToLower (s : String) : String :=
  ⟨s.data.map Char.toLower⟩

/-! ### base64 and form encoding -/

/-- The base64 alphabet used by `btoa` / `Buffer.toString('base64')`. -/
def base64Alphabet : Str :=
  "ABCDEFGHIJKLMNOPQRSTUVWXYZabcdefghijklmnopqrstuvwxyz0123456789+/".data

/-- Digit of the base64 alphabet. -/
def base64Char (n : Nat) : Char :=
  base64Alphabet.getD n 'A'

/-- Encode a byte sequence in base64, three bytes to four digits, with
`=` padding on a trailing group of one or two bytes. -/
def base64Chunks : List Nat → List Char
  | b1 :: b2 :: b3 :: rest =>
    let n := b1 * 65536 + b2 * 256 + b3
    base64Char (n / 262144) :: base64Char (n / 4096 % 64) ::
      base64Char (n / 64 % 64) :: base64Char (n % 64) :: base64Chunks rest
  | [b1, b2] =>
    let n := b1 * 65536 + b2 * 256
    [base64Char (n / 262144), base64Char (n / 4096 % 64), base64Char (n / 64 % 64), '=']
  | [b1] =>
    let n := b1 * 65536
    [base64Char (n / 262144), base64Char (n / 4096 % 64), '=', '=']
  | [] => []

/-- `btoa(s)` / `Buffer.from(s).toString('base64')` on the code points of `s`
(the credential strings involved are ASCII). -/
def base64Encode (s : String) : String :=
  ⟨base64Chunks (s.data.map Char.toNat)⟩

/-- Upper-case hexadecimal digit. -/
def hexDigit (n : Nat) : Char :=
  "0123456789ABCDEF".data.getD n '0'

/-- UTF-8 bytes of a code point. -/
def utf8Bytes (n : Nat) : List Nat :=
  if n < 128 then [n]
  else if n < 2048 then [192 + n / 64, 128 + n % 64]
  else if n < 65536 then [224 + n / 4096, 128 + n / 64 % 64, 128 + n % 64]
  else [240 + n / 262144, 128 + n / 4096 % 64, 128 + n / 64 % 64, 128 + n % 64]

/-- Percent-encoding of one byte. -/
def percentByte (b : Nat) : List Char :=
  ['%', hexDigit (b / 16), hexDigit (b % 16)]

/-- `application/x-www-form-urlencoded` encoding of one character, as done by
`URLSearchParams`: unreserved characters pass through, space becomes `+`,
everything else is percent-encoded byte by byte. -/
def encodeComponentChar (c : Char) : List Char :=
  if c.isAlphanum || c == '-' || c == '_' || c == '.' || c == '*' then [c]
  else if c == ' ' then ['+']
  else ((utf8Bytes c.toNat).map percentByte).flatten

/-- `URLSearchParams` encoding of one component. -/
def encodeComponent (s : String) : String :=
  ⟨(s.data.map encodeComponentChar).flatten⟩

/-- `new URLSearchParams({...}).toString()`: `k=v` pairs joined by `&`. -/
def urlSearchParamsEncode (params : List (String × String)) : String :=
  String.intercalate "&" (params.map (fun p => encodeComponent p.1 ++ "=" ++ encodeComponent p.2))

/-! ### Data model -/

/-- The two named routing identifiers of a workspace. -/
structure FlowIds where
  nerv : String
  recurring : String
deriving DecidableEq

/-- `WorkspaceCredentials` as declared in `server.ts` and `src/lib/http.ts`. -/
structure WorkspaceCredentials where
  clientId : String
  clientSecret : String
  workspace : String
  tokenUrl : String
  apiBaseUrl : String
  flowIds : FlowIds
deriving DecidableEq

/-- `CachedToken` of `src/auth/token.ts`: an opaque bearer string with its
absolute expiry instant in milliseconds. -/
structure CachedToken where
  token : String
  expiresAt : Nat
deriving DecidableEq

/-- The module-level `Map<string, CachedToken>` keyed by workspace, as an
association list. -/
abbrev TokenCache := List (String × CachedToken)

/-- `tokenCache.get(workspace)`. -/
def lookupToken : TokenCache → String → Option CachedToken
  | [], _ => none
  | (k, v) :: rest, w => if k = w then some v else lookupToken rest w

/-- `tokenCache.set(workspace, entry)`: replace the entry of that key, or
append a new one. -/
def setToken : TokenCache → String → CachedToken → TokenCache
  | [], w, v => [(w, v)]
  | (k, u) :: rest, w, v =>
    if k = w then (w, v) :: rest else (k, u) :: setToken rest w v

/-- `clearCachedToken(workspace)` of `src/auth/token.ts`:
`tokenCache.delete(workspace)`. -/
def clearCachedToken : TokenCache → String → TokenCache
  | [], _ => []
  | (k, v) :: rest, w =>
    if k = w then clearCachedToken rest w else (k, v) :: clearCachedToken rest w

/-! ### Token broker -/

/-- The parsed JSON body of a successful token exchange. -/
structure TokenResponse where
  access_token : String
  expires_in : Nat
  token_type : String
  scope : Option String
deriving DecidableEq

/-- Outcome of the `fetch` to the token endpoint: either `response.ok` with a
parsed `TokenResponse`, or a non-success response with its status, status text
and body text. -/
inductive TokenEndpoint where
  | success (data : TokenResponse)
  | failure (status : Nat) (statusText : String) (body : String)
deriving DecidableEq

/-- The diagnostic payload of the error thrown by `getAccessToken` on a
non-success exchange: `Token request failed (${status}): ${errorText}`. -/
structure TokenRequestFailedError where
  status : Nat
  body : String
deriving DecidableEq

/-- `TokenConfig` of `src/auth/token.ts`. -/
structure TokenConfig where
  tokenUrl : String
  clientId : String
  clientSecret : String
  workspace : String
deriving DecidableEq

/-- The `TokenConfig` literal that `authenticatedFetch` builds from resolved
credentials before calling `getAccessToken`. -/
def tokenConfigOf (c : WorkspaceCredentials) : TokenConfig :=
  ⟨c.tokenUrl, c.clientId, c.clientSecret, c.workspace⟩

/-- Result of one broker invocation: the returned token or thrown error, the
cache afterwards, and how many requests were issued to the token endpoint. -/
structure BrokerOutcome (ε : Type) where
  result : Except ε String
  cache : TokenCache
  tokenRequests : Nat

/-- The cache-miss path of `getAccessToken` (the body of its `try` block):
issue the exchange; on success cache `{token, expiresAt = now + expires_in*1000}`
keyed by workspace and return the token; on a non-success response throw,
leaving the cache untouched. -/
def exchangeToken (cache : TokenCache) (now : Nat) (config : TokenConfig)
    (endpoint : TokenEndpoint) : BrokerOutcome TokenRequestFailedError :=
  match endpoint with
  | .success data =>
    let expiresAt := now + data.expires_in * 1000
    ⟨.ok data.access_token, setToken cache config.workspace ⟨data.access_token, expiresAt⟩, 1⟩
  | .failure status _ body =>
    ⟨.error ⟨status, body⟩, cache, 1⟩

/-- `getAccessToken` of `src/auth/token.ts`: return the cached token when the
entry expires more than 60 seconds from now, otherwise perform the exchange. -/
def getAccessToken (cache : TokenCache) (now : Nat) (config : TokenConfig)
    (endpoint : TokenEndpoint) : BrokerOutcome TokenRequestFailedError :=
  match lookupToken cache config.workspace with
  | some cached =>
    if cached.expiresAt > now + 60000 then
      ⟨.ok cached.token, cache, 0⟩
    else
      exchangeToken cache now config endpoint
  | none => exchangeToken cache now config endpoint

/-- The cache-miss path of `getBearerToken` of `server.ts`: same exchange, but
the thrown error message is `Token fetch failed: ${statusText}` — the body
text is read into `errorText` and logged, not thrown. -/
def serverExchangeToken (cache : TokenCache) (now : Nat)
    (credentials : WorkspaceCredentials) (endpoint : TokenEndpoint) :
    BrokerOutcome String :=
  match endpoint with
  | .success data =>
    ⟨.ok data.access_token,
      setToken cache credentials.workspace ⟨data.access_token, now + data.expires_in * 1000⟩, 1⟩
  | .failure _ statusText _ =>
    ⟨.error ("Token fetch failed: " ++ statusText), cache, 1⟩

/-- `getBearerToken` of `server.ts`: the server-side copy of the token broker. -/
def getBearerToken (cache : TokenCache) (now : Nat)
    (credentials : WorkspaceCredentials) (endpoint : TokenEndpoint) :
    BrokerOutcome String :=
  match lookupToken cache credentials.workspace with
  | some cached =>
    if cached.expiresAt > now + 60000 then
      ⟨.ok cached.token, cache, 0⟩
    else
      serverExchangeToken cache now credentials endpoint
  | none => serverExchangeToken cache now credentials endpoint

/-! ### Outbound HTTP requests -/

/-- An outbound HTTP request as assembled before `fetch`. -/
structure HttpRequest where
  method : String
  url : String
  headers : List (String × String)
  body : String
deriving DecidableEq

/-- First header of the given name, if any. -/
def lookupHeader (req : HttpRequest) (name : String) : Option String :=
  (req.headers.find? (fun p => p.1 == name)).map (fun p => p.2)

/-- The token-endpoint request issued by `getAccessToken` of
`src/auth/token.ts`: `POST tokenUrl` with form content type, Basic
authorization over `clientId:clientSecret`, and body
`grant_type=client_credentials`. -/
def tokenExchangeRequest (config : TokenConfig) : HttpRequest :=
  { method := "POST"
    url := config.tokenUrl
    headers := [("Content-Type", "application/x-www-form-urlencoded"),
                ("Authorization",
                  "Basic " ++ base64Encode (config.clientId ++ ":" ++ config.clientSecret))]
    body := "grant_type=client_credentials" }

/-- The token-endpoint request issued by `getBearerToken` of `server.ts`:
same shape, built from a `WorkspaceCredentials`. -/
def serverTokenRequest (credentials : WorkspaceCredentials) : HttpRequest :=
  { method := "POST"
    url := credentials.tokenUrl
    headers := [("Content-Type", "application/x-www-form-urlencoded"),
                ("Authorization",
                  "Basic " ++ base64Encode (credentials.clientId ++ ":" ++ credentials.clientSecret))]
    body := "grant_type=client_credentials" }

/-- The administrative token request of `fetchCredentialsFromKeycloak` in
`server.ts` (step 1): `POST` to the realm token endpoint with form content
type and a `URLSearchParams` body carrying `grant_type`, `client_id` and
`client_secret` — there is no `Authorization` header. -/
def adminTokenRequest (keycloakUrl keycloakRealm keycloakClientId keycloakClientSecret : String) :
    HttpRequest :=
  { method := "POST"
    url := keycloakUrl ++ "/realms/" ++ keycloakRealm ++ "/protocol/openid-connect/token"
    headers := [("Content-Type", "application/x-www-form-urlencoded")]
    body := urlSearchParamsEncode
      [("grant_type", "client_credentials"),
       ("client_id", keycloakClientId),
       ("client_secret", keycloakClientSecret)] }

/-! ### Request parameter resolver -/

/-- The URL rewriting of `authorizeRequest` in `src/apiIdentity.ts`: replace
every `{workspace}` with `credentials.workspace`; then, if the result still
contains `{flowId}`, replace every `{flowId}` with `flowIds.recurring` when
the rewritten URL contains `/fetch/`, and with `flowIds.nerv` otherwise. -/
def substituteParams (url : String) (credentials : WorkspaceCredentials) : String :=
  let targetUrl := jsReplaceAll url "{workspace}" credentials.workspace
  if jsIncludes targetUrl "{flowId}" then
    let flowId := if jsIncludes targetUrl "/fetch/" then
        credentials.flowIds.recurring
      else
        credentials.flowIds.nerv
    jsReplaceAll targetUrl "{flowId}" flowId
  else
    targetUrl

/-- Suffix of a character list after the first occurrence of a pattern
(empty when the pattern does not occur). -/
def afterFirst (pat : Str) : Str → Str
  | [] => []
  | c :: rest =>
    if pat.isPrefixOf (c :: rest) then List.drop (pat.length - 1) rest
    else afterFirst pat rest

/-- Modelled from the claim's words: the path portion of a request URL — what
stands after the scheme-and-host prefix and before the query string.  Used
only to compare the code's behaviour with the claim's "path contains the
literal segment /fetch/". -/
def urlPathOfClaim (url : String) : String :=
  ⟨((afterFirst "://".data url.data).dropWhile (fun c => c ≠ '/')).takeWhile (fun c => c ≠ '?')⟩

/-! ### Credential resolver -/

/-- The process environment / attribute maps: a partial map from names to
string values, `none` modelling an absent variable. -/
abbrev Env := String → Option String

/-- Default token endpoint hard-coded in `server.ts`. -/
def defaultTokenUrl : String :=
  "https://id.finarkein.com/auth/realms/fin-dev/protocol/openid-connect/token"

/-- Default tenant API base hard-coded in `server.ts`. -/
def defaultApiBaseUrl : String :=
  "https://api.finarkein.in/factory/v1"

/-- `fetchCredentialsFromEnv` of `server.ts`: workspace-prefixed variables
(lower-cased workspace) first for client id, client secret and the two flow
ids, then the global fallbacks; `AUTH_TOKEN_URL` and `FACTORY_API` are read
only globally; missing client id or secret throws an error naming the
workspace. -/
def fetchCredentialsFromEnv (env : Env) (workspace : String) :
    Except String WorkspaceCredentials :=
  let workspaceLower := jsToLower workspace
  let clientId := jsOrString (env (workspaceLower ++ "_AUTH_CLIENT_ID")) (env "AUTH_CLIENT_ID")
  let clientSecret :=
    jsOrString (env (workspaceLower ++ "_AUTH_CLIENT_SECRET")) (env "AUTH_CLIENT_SECRET")
  let nervFlowId := jsOrString (env (workspaceLower ++ "_NERV_FLOW_ID")) (env "nerv.flow.id")
  let recurringFlowId :=
    jsOrString (env (workspaceLower ++ "_RECURRING_FLOW_ID")) (env "recurring.nerv.flow.id")
  if !jsTruthy clientId || !jsTruthy clientSecret then
    .error ("Credentials not found for workspace: " ++ workspace)
  else
    .ok { clientId := jsOrDefault clientId ""
          clientSecret := jsOrDefault clientSecret ""
          workspace := workspace
          tokenUrl := jsOrDefault (env "AUTH_TOKEN_URL") defaultTokenUrl
          apiBaseUrl := jsOrDefault (env "FACTORY_API") defaultApiBaseUrl
          flowIds := { nerv := jsOrDefault nervFlowId ""
                       recurring := jsOrDefault recurringFlowId "" } }

/-- A Keycloak client record: only its `attributes` map matters here. -/
structure ClientRecord where
  attributes : Env

/-- Outcome of one `fetch` inside `fetchCredentialsFromKeycloak`: a completed
response with its status and parsed payload, or a thrown exception. -/
inductive FetchResult (α : Type) where
  | completed (status : Nat) (payload : α)
  | thrown (message : String)

/-- `response.ok` of the Fetch API. -/
def statusOk (status : Nat) : Bool :=
  200 ≤ status && status < 300

/-- `fetchCredentialsFromKeycloak` of `server.ts`: `null` (here `none`) when
Keycloak is not configured, when the admin token request or the client lookup
fails or returns non-success, when no client record matches, when the required
attributes are missing, or when any step throws. -/
def fetchCredentialsFromKeycloak (env : Env) (workspace : String)
    (adminTokenFetch : FetchResult String)
    (clientsFetch : FetchResult (List ClientRecord)) :
    Option WorkspaceCredentials :=
  if !jsTruthy (env "KEYCLOAK_URL") || !jsTruthy (env "KEYCLOAK_REALM") ||
      !jsTruthy (env "KEYCLOAK_CLIENT_ID") || !jsTruthy (env "KEYCLOAK_CLIENT_SECRET") then
    none
  else
    match adminTokenFetch with
    | .thrown _ => none
    | .completed tokenStatus _adminToken =>
      if !statusOk tokenStatus then none
      else
        match clientsFetch with
        | .thrown _ => none
        | .completed clientsStatus clients =>
          if !statusOk clientsStatus then none
          else
            match clients with
            | [] => none
            | client :: _ =>
              let attributes := client.attributes
              let clientId :=
                jsOrString (attributes "AUTH_CLIENT_ID") (attributes "auth_client_id")
              let clientSecret :=
                jsOrString (attributes "AUTH_CLIENT_SECRET") (attributes "auth_client_secret")
              let tokenUrlAttr :=
                jsOrString (attributes "AUTH_TOKEN_URL") (attributes "auth_token_url")
              let nervFlowId :=
                jsOrString (attributes "NERV_FLOW_ID") (attributes "nerv_flow_id")
              let recurringFlowId :=
                jsOrString (attributes "RECURRING_FLOW_ID") (attributes "recurring_flow_id")
              let apiBaseUrl :=
                jsOrString (attributes "FACTORY_API") (attributes "factory_api")
              if !jsTruthy clientId || !jsTruthy clientSecret then none
              else
                some { clientId := jsOrDefault clientId ""
                       clientSecret := jsOrDefault clientSecret ""
                       workspace := workspace
                       tokenUrl := jsOrDefault tokenUrlAttr defaultTokenUrl
                       apiBaseUrl := jsOrDefault apiBaseUrl defaultApiBaseUrl
                       flowIds := { nerv := jsOrDefault nervFlowId ""
                                    recurring := jsOrDefault recurringFlowId "" } }

/-- `fetchCredentials` of `server.ts`: Keycloak first, environment fallback. -/
def fetchCredentials (env : Env) (workspace : String)
    (adminTokenFetch : FetchResult String)
    (clientsFetch : FetchResult (List ClientRecord)) :
    Except String WorkspaceCredentials :=
  match fetchCredentialsFromKeycloak env workspace adminTokenFetch clientsFetch with
  | some keycloakCredentials => .ok keycloakCredentials
  | none => fetchCredentialsFromEnv env workspace

/-! ### Authenticated request executor -/

/-- A dispatched HTTP response. -/
structure HttpResponse where
  status : Nat
  statusText : String
  body : String
deriving DecidableEq

/-- The third argument of `authenticatedFetch` in `src/lib/http.ts`: a
workspace identifier (possibly absent) or a pre-fetched credentials object. -/
inductive WorkspaceOrCredentials where
  | workspaceId (workspace : Option String)
  | credentials (c : WorkspaceCredentials)

/-- How many calls to the credential-serving endpoint resolving the target
costs: one for a workspace identifier, none for a credentials object. -/
def credentialFetchCount : WorkspaceOrCredentials → Nat
  | .workspaceId _ => 1
  | .credentials _ => 0

/-- Resolving the target: a credentials object is used directly; a workspace
identifier goes through `fetchCredentials`, whose outcome enters as the
`credentialsFetch` oracle. -/
def resolveTarget (credentialsFetch : Except String WorkspaceCredentials) :
    WorkspaceOrCredentials → Except String WorkspaceCredentials
  | .workspaceId _ => credentialsFetch
  | .credentials c => .ok c

/-- An error thrown out of `authenticatedFetch`. -/
inductive AuthFetchError where
  | credentialsFailed (message : String)
  | tokenFailed (e : TokenRequestFailedError)
deriving DecidableEq

/-- Result of one `authenticatedFetch` execution: the returned response or
thrown error, the token cache afterwards, the number of credential fetches and
token-endpoint requests issued, and — for each dispatch of the target request,
in order — the token-cache contents at the moment that dispatch was issued. -/
structure ExecutorOutcome where
  result : Except AuthFetchError HttpResponse
  cache : TokenCache
  credentialFetches : Nat
  tokenRequests : Nat
  dispatches : List TokenCache

/-- `authenticatedFetch` with `retryOn401 = false` (the execution the source
recurses into): resolve the target, obtain a token, dispatch once, and return
that response as-is — a `401` here is returned, never retried. -/
def authenticatedFetchOnce (credentialsFetch : Except String WorkspaceCredentials)
    (tokenEndpoint : Nat → TokenEndpoint) (dispatch : Nat → HttpResponse) (now : Nat)
    (target : WorkspaceOrCredentials) (cache : TokenCache) (tIdx dIdx : Nat) :
    ExecutorOutcome :=
  match resolveTarget credentialsFetch target with
  | .error message =>
    ⟨.error (.credentialsFailed message), cache, credentialFetchCount target, 0, []⟩
  | .ok credentials =>
    let broker := getAccessToken cache now (tokenConfigOf credentials) (tokenEndpoint tIdx)
    match broker.result with
    | .error e =>
      ⟨.error (.tokenFailed e), broker.cache, credentialFetchCount target, broker.tokenRequests, []⟩
    | .ok _accessToken =>
      ⟨.ok (dispatch dIdx), broker.cache, credentialFetchCount target,
        broker.tokenRequests, [broker.cache]⟩

/-- `authenticatedFetch` of `src/lib/http.ts`: resolve the target (reusing a
supplied credentials object without any fetch), obtain a token from the
broker, dispatch the request, and on a `401` with `retryOn401` set clear the
cached token of that workspace and recurse exactly once with `retryOn401 =
false`, passing the same credentials object.  The oracles `tokenEndpoint` and
`dispatch` give the network's answers to successive token requests and target
dispatches, indexed by `tIdx` / `dIdx`. -/
def authenticatedFetch (credentialsFetch : Except String WorkspaceCredentials)
    (tokenEndpoint : Nat → TokenEndpoint) (dispatch : Nat → HttpResponse) (now : Nat)
    (target : WorkspaceOrCredentials) (retryOn401 : Bool) (cache : TokenCache)
    (tIdx dIdx : Nat) : ExecutorOutcome :=
  match resolveTarget credentialsFetch target with
  | .error message =>
    ⟨.error (.credentialsFailed message), cache, credentialFetchCount target, 0, []⟩
  | .ok credentials =>
    let broker := getAccessToken cache now (tokenConfigOf credentials) (tokenEndpoint tIdx)
    match broker.result with
    | .error e =>
      ⟨.error (.tokenFailed e), broker.cache, credentialFetchCount target, broker.tokenRequests, []⟩
    | .ok _accessToken =>
      let response := dispatch dIdx
      if response.status = 401 ∧ retryOn401 = true then
        let cleared := clearCachedToken broker.cache credentials.workspace
        let retried := authenticatedFetchOnce credentialsFetch tokenEndpoint dispatch now
          (.credentials credentials) cleared (tIdx + broker.tokenRequests) (dIdx + 1)
        ⟨retried.result, retried.cache,
          credentialFetchCount target + retried.credentialFetches,
          broker.tokenRequests + retried.tokenRequests,
          broker.cache :: retried.dispatches⟩
      else
        ⟨.ok response, broker.cache, credentialFetchCount target,
          broker.tokenRequests, [broker.cache]⟩

/-! ### authorizeRequest of the console -/

/-- The console request handed to `authorizeRequest`. -/
structure ConsoleRequest where
  url : String
  method : String
  headers : List (String × String)
  body : String
deriving DecidableEq

/-- Response of the credential-serving endpoint: its status, and the parsed
credentials payload (meaningful only when the status is a success). -/
structure CredentialsEndpointResult where
  status : Nat
  payload : WorkspaceCredentials

/-- What `authorizeRequest` hands back to the console: the original request
unchanged, or the authenticated response. -/
inductive AuthorizeOutcome where
  | request (r : ConsoleRequest)
  | response (r : HttpResponse)

/-- `authorizeRequest` of `src/apiIdentity.ts`: when the credentials fetch is
not `ok`, return the original request unchanged; otherwise substitute the URL
parameters and run the authenticated fetch with the resolved credentials,
falling back to the original request if that throws. -/
def authorizeRequest (request : ConsoleRequest)
    (credentialsResponse : CredentialsEndpointResult)
    (credentialsFetch : Except String WorkspaceCredentials)
    (tokenEndpoint : Nat → TokenEndpoint) (dispatch : Nat → HttpResponse)
    (now : Nat) (cache : TokenCache) : AuthorizeOutcome × TokenCache :=
  if !statusOk credentialsResponse.status then
    (.request request, cache)
  else
    let credentials := credentialsResponse.payload
    let _targetUrl := substituteParams request.url credentials
    let fetched := authenticatedFetch credentialsFetch tokenEndpoint dispatch now
      (.credentials credentials) true cache 0 0
    match fetched.result with
    | .ok response => (.response response, fetched.cache)
    | .error _ => (.request request, fetched.cache)

/-! ### Concrete example inputs used by witnesses and counterexamples -/

/-- A concrete credentials record. -/
def credsEx : WorkspaceCredentials :=
  ⟨"cid", "cs", "acme", "https://idp.example/token", "https://api.example", ⟨"N", "R"⟩⟩

/-- A concrete token configuration for workspace `acme`. -/
def cfgEx : TokenConfig :=
  ⟨"https://idp.example/token", "cid", "cs", "acme"⟩

/-- A concrete cache with two entries. -/
def cacheEx : TokenCache :=
  [("a", ⟨"t1", 5⟩), ("b", ⟨"t2", 7⟩)]

/-- A concrete cache holding a long-lived token for `acme`. -/
def cacheHitEx : TokenCache :=
  [("acme", ⟨"tok", 100000000⟩)]

/-- A concrete successful token-exchange payload. -/
def dataEx : TokenResponse :=
  ⟨"tok1", 300, "Bearer", none⟩

/-- A token endpoint that always answers with `dataEx`. -/
def teEx : Nat → TokenEndpoint :=
  fun _ => .success dataEx

/-- A tenant API that always answers `401`. -/
def dEx401 : Nat → HttpResponse :=
  fun _ => ⟨401, "Unauthorized", "Unauthorized"⟩

/-- A concrete console request with both template markers. -/
def reqEx : ConsoleRequest :=
  ⟨"https://api.example/tenant/{workspace}/status/{flowId}", "GET", [], ""⟩

/-- The URL of the C5 counterexample: its path has no `/fetch/` segment, but
its query string does. -/
def counterUrlC5 : String :=
  "https://api.example.com/status/{flowId}?redirect=/fetch/home"

/-- Environment of the C7 counterexample: a workspace-scoped token URL is
present alongside the global one. -/
def envC7 : Env := fun k =>
  if k = "acme_AUTH_CLIENT_ID" then some "cid-scoped"
  else if k = "acme_AUTH_CLIENT_SECRET" then some "sec-scoped"
  else if k = "acme_AUTH_TOKEN_URL" then some "https://scoped.example/token"
  else if k = "AUTH_TOKEN_URL" then some "https://global.example/token"
  else none

/-- Environment of the C8 witness: Keycloak fully configured, and static
credentials present as fallback. -/
def envC8 : Env := fun k =>
  if k = "KEYCLOAK_URL" then some "https://kc.example"
  else if k = "KEYCLOAK_REALM" then some "realm1"
  else if k = "KEYCLOAK_CLIENT_ID" then some "admin-cli"
  else if k = "KEYCLOAK_CLIENT_SECRET" then some "adminsecret"
  else if k = "AUTH_CLIENT_ID" then some "cid"
  else if k = "AUTH_CLIENT_SECRET" then some "cs"
  else none

/-- Response of the credential endpoint in the C6 witness: a `404`. -/
def credRespFailEx : CredentialsEndpointResult :=
  ⟨404, credsEx⟩

/-- Clients lookup used in the C8 witness. -/
def clientsFetchEx : FetchResult (List ClientRecord) :=
  .completed 200 []

/-! ### Cache lemmas -/

/-- After `clearCachedToken`, the cleared key is absent. -/
theorem lookupToken_clear_self (cache : TokenCache) (w : String) :
    lookupToken (clearCachedToken cache w) w = none := by
  induction cache with
  | nil => rfl
  | cons p rest ih =>
    obtain ⟨k, v⟩ := p
    by_cases hk : k = w
    · simp [clearCachedToken, hk, ih]
    · simp [clearCachedToken, lookupToken, hk, ih]

/-- `clearCachedToken` does not touch other keys. -/
theorem lookupToken_clear_other (cache : TokenCache) (w w2 : String) (h : w2 ≠ w) :
    lookupToken (clearCachedToken cache w) w2 = lookupToken cache w2 := by
  induction cache with
  | nil => rfl
  | cons p rest ih =>
    obtain ⟨k, v⟩ := p
    by_cases hk : k = w
    · subst hk
      have : ¬(k = w2) := fun hc => h (hc ▸ rfl)
      simp [clearCachedToken, lookupToken, this, ih]
    · by_cases hk2 : k = w2
      · simp [clearCachedToken, lookupToken, hk, hk2, h]
      · simp [clearCachedToken, lookupToken, hk, hk2, ih]

/-- Clearing a key that is absent leaves the cache unchanged. -/
theorem clearCachedToken_absent (cache : TokenCache) (w : String)
    (h : lookupToken cache w = none) : clearCachedToken cache w = cache := by
  induction cache with
  | nil => rfl
  | cons p rest ih =>
    obtain ⟨k, v⟩ := p
    by_cases hk : k = w
    · simp [lookupToken, hk] at h
    · simp [lookupToken, hk] at h
      simp [clearCachedToken, hk, ih h]

/-- `setToken` stores the new entry under its key. -/
theorem lookupToken_set_self (cache : TokenCache) (w : String) (v : CachedToken) :
    lookupToken (setToken cache w v) w = some v := by
  induction cache with
  | nil => simp [setToken, lookupToken]
  | cons p rest ih =>
    obtain ⟨k, u⟩ := p
    by_cases hk : k = w
    · simp [setToken, hk, lookupToken]
    · simp [setToken, lookupToken, hk, ih]

/-- `setToken` does not touch other keys. -/
theorem lookupToken_set_other (cache : TokenCache) (w : String) (v : CachedToken)
    (w2 : String) (h : w2 ≠ w) :
    lookupToken (setToken cache w v) w2 = lookupToken cache w2 := by
  induction cache with
  | nil =>
    have : ¬(w = w2) := fun hc => h (hc ▸ rfl)
    simp [setToken, lookupToken, this]
  | cons p rest ih =>
    obtain ⟨k, u⟩ := p
    by_cases hk : k = w
    · subst hk
      have : ¬(k = w2) := fun hc => h (hc ▸ rfl)
      simp [setToken, lookupToken, this]
    · by_cases hk2 : k = w2
      · simp [setToken, lookupToken, hk, hk2, h]
      · simp [setToken, lookupToken, hk, hk2, ih]

/-! ### Claim theorems -/

/-- C10: `clearCachedToken w` removes at most the entry keyed by `w`: the
cleared key is absent afterwards, every other workspace's entry is unchanged,
a cache with no entry for `w` is returned unchanged, and the operation is
idempotent. -/
theorem clearCachedToken_frame (cache : TokenCache) (w : String) :
    lookupToken (clearCachedToken cache w) w = none
    ∧ (∀ w2, w2 ≠ w → lookupToken (clearCachedToken cache w) w2 = lookupToken cache w2)
    ∧ (lookupToken cache w = none → clearCachedToken cache w = cache)
    ∧ clearCachedToken (clearCachedToken cache w) w = clearCachedToken cache w :=
  ⟨lookupToken_clear_self cache w,
   fun w2 h => lookupToken_clear_other cache w w2 h,
   clearCachedToken_absent cache w,
   clearCachedToken_absent (clearCachedToken cache w) w (lookupToken_clear_self cache w)⟩

/-- Witness for C10 at a concrete two-entry cache. -/
theorem clearCachedToken_frame_witness :
    ("b" : String) ≠ "a"
    ∧ lookupToken (clearCachedToken cacheEx "a") "b" = lookupToken cacheEx "b"
    ∧ lookupToken cacheEx "c" = none ∧ clearCachedToken cacheEx "c" = cacheEx :=
  ⟨by decide, (clearCachedToken_frame cacheEx "a").2.1 "b" (by decide), rfl,
   (clearCachedToken_frame cacheEx "c").2.2.1 rfl⟩

/-- C2: when the cache holds an entry for the workspace whose expiry is more
than 60 seconds away at both call instants, `getAccessToken` returns the
cached token both times, leaves the cache unchanged, and the two calls
together issue zero token-endpoint requests. -/
theorem getAccessToken_cache_hit_no_network (cache : TokenCache) (now1 now2 : Nat)
    (config : TokenConfig) (e1 e2 : TokenEndpoint) (cached : CachedToken)
    (hlookup : lookupToken cache config.workspace = some cached)
    (hfresh1 : cached.expiresAt > now1 + 60000)
    (hfresh2 : cached.expiresAt > now2 + 60000) :
    getAccessToken cache now1 config e1 = ⟨.ok cached.token, cache, 0⟩
    ∧ getAccessToken (getAccessToken cache now1 config e1).cache now2 config e2
        = ⟨.ok cached.token, cache, 0⟩
    ∧ (getAccessToken cache now1 config e1).tokenRequests
        + (getAccessToken (getAccessToken cache now1 config e1).cache now2 config e2).tokenRequests
        = 0 := by
  have h1 : getAccessToken cache now1 config e1 = ⟨.ok cached.token, cache, 0⟩ := by
    unfold getAccessToken
    rw [hlookup]
    simp [hfresh1]
  have h2 : getAccessToken cache now2 config e2 = ⟨.ok cached.token, cache, 0⟩ := by
    unfold getAccessToken
    rw [hlookup]
    simp [hfresh2]
  refine ⟨h1, ?_, ?_⟩
  · rw [h1]
    exact h2
  · rw [h1]
    simp [h2]

/-- Witness for C2: a cached `acme` token far from expiry at instants `0` and
`10000`. -/
theorem getAccessToken_cache_hit_no_network_witness :
    lookupToken cacheHitEx cfgEx.workspace = some ⟨"tok", 100000000⟩
    ∧ (100000000 : Nat) > 0 + 60000 ∧ (100000000 : Nat) > 10000 + 60000
    ∧ (getAccessToken cacheHitEx 0 cfgEx (teEx 0)).tokenRequests
        + (getAccessToken (getAccessToken cacheHitEx 0 cfgEx (teEx 0)).cache 10000 cfgEx
            (teEx 1)).tokenRequests
        = 0 :=
  ⟨rfl, by decide, by decide,
   (getAccessToken_cache_hit_no_network cacheHitEx 0 10000 cfgEx (teEx 0) (teEx 1)
      ⟨"tok", 100000000⟩ rfl (by decide) (by decide)).2.2⟩

/-- C3: on a successful exchange (no usable cache entry), `getAccessToken`
returns `access_token`, stores `{token, expiresAt = now + expires_in*1000}`
under the workspace key — overwriting any prior entry for that key and leaving
every other key unchanged — and issues exactly one token request. -/
theorem getAccessToken_success_caches_token (cache : TokenCache) (now : Nat)
    (config : TokenConfig) (data : TokenResponse)
    (hmiss : ∀ cached, lookupToken cache config.workspace = some cached →
      ¬(cached.expiresAt > now + 60000)) :
    getAccessToken cache now config (.success data)
      = ⟨.ok data.access_token,
          setToken cache config.workspace ⟨data.access_token, now + data.expires_in * 1000⟩, 1⟩
    ∧ lookupToken
        (setToken cache config.workspace ⟨data.access_token, now + data.expires_in * 1000⟩)
        config.workspace
      = some ⟨data.access_token, now + data.expires_in * 1000⟩
    ∧ ∀ w2, w2 ≠ config.workspace →
        lookupToken
          (setToken cache config.workspace ⟨data.access_token, now + data.expires_in * 1000⟩) w2
        = lookupToken cache w2 := by
  refine ⟨?_, lookupToken_set_self _ _ _, fun w2 h => lookupToken_set_other _ _ _ _ h⟩
  unfold getAccessToken
  cases hc : lookupToken cache config.workspace with
  | none => rfl
  | some cached =>
    have hstale := hmiss cached hc
    simp [hstale, exchangeToken]

/-- Witness for C3: an empty cache and the concrete exchange payload. -/
theorem getAccessToken_success_caches_token_witness :
    (∀ cached, lookupToken ([] : TokenCache) cfgEx.workspace = some cached →
      ¬(cached.expiresAt > 0 + 60000))
    ∧ lookupToken (setToken [] cfgEx.workspace ⟨"tok1", 0 + 300 * 1000⟩) cfgEx.workspace
        = some ⟨"tok1", 0 + 300 * 1000⟩ := by
  have hmiss : ∀ cached, lookupToken ([] : TokenCache) cfgEx.workspace = some cached →
      ¬(cached.expiresAt > 0 + 60000) := by
    intro cached h
    simp [lookupToken] at h
  exact ⟨hmiss, (getAccessToken_success_caches_token [] 0 cfgEx dataEx hmiss).2.1⟩

/-- C4 counterexample: two failing exchanges with different upstream status
and body yield the very same error from the server-side broker
`getBearerToken`, so its error carries neither the upstream status nor the
response body (only the status text). -/
theorem getBearerToken_error_loses_status_and_body :
    (getBearerToken [] 0 credsEx (.failure 500 "Server Error" "bodyA")).result
      = (getBearerToken [] 0 credsEx (.failure 502 "Server Error" "bodyB")).result
    ∧ ((500 : Nat), "bodyA") ≠ ((502 : Nat), "bodyB") :=
  ⟨rfl, by decide⟩

/-- C4 amended: on a non-success exchange with no usable cache entry, the
client-side broker `getAccessToken` fails with an error carrying the upstream
status and body, the server-side broker `getBearerToken` fails with an error
carrying only the upstream status text, and both leave the token cache exactly
as it was. -/
theorem tokenBrokers_failure_leave_cache (cache : TokenCache) (now : Nat)
    (config : TokenConfig) (status : Nat) (statusText body : String)
    (cache2 : TokenCache) (now2 : Nat) (credentials : WorkspaceCredentials)
    (status2 : Nat) (statusText2 body2 : String)
    (hmiss : ∀ cached, lookupToken cache config.workspace = some cached →
      ¬(cached.expiresAt > now + 60000))
    (hmiss2 : ∀ cached, lookupToken cache2 credentials.workspace = some cached →
      ¬(cached.expiresAt > now2 + 60000)) :
    getAccessToken cache now config (.failure status statusText body)
      = ⟨.error ⟨status, body⟩, cache, 1⟩
    ∧ getBearerToken cache2 now2 credentials (.failure status2 statusText2 body2)
      = ⟨.error ("Token fetch failed: " ++ statusText2), cache2, 1⟩ := by
  constructor
  · unfold getAccessToken
    cases hc : lookupToken cache config.workspace with
    | none => rfl
    | some cached =>
      have hstale := hmiss cached hc
      simp [hstale, exchangeToken]
  · unfold getBearerToken
    cases hc : lookupToken cache2 credentials.workspace with
    | none => rfl
    | some cached =>
      have hstale := hmiss2 cached hc
      simp [hstale, serverExchangeToken]

/-- Witness for the amended C4 at empty caches. -/
theorem tokenBrokers_failure_leave_cache_witness :
    (∀ cached, lookupToken ([] : TokenCache) cfgEx.workspace = some cached →
      ¬(cached.expiresAt > 0 + 60000))
    ∧ getAccessToken [] 0 cfgEx (.failure 500 "Server Error" "oops")
        = ⟨.error ⟨500, "oops"⟩, [], 1⟩ := by
  have hmiss : ∀ cached, lookupToken ([] : TokenCache) cfgEx.workspace = some cached →
      ¬(cached.expiresAt > 0 + 60000) := by
    intro cached h
    simp [lookupToken] at h
  have hmiss2 : ∀ cached, lookupToken ([] : TokenCache) credsEx.workspace = some cached →
      ¬(cached.expiresAt > 0 + 60000) := by
    intro cached h
    simp [lookupToken] at h
  exact ⟨hmiss,
    (tokenBrokers_failure_leave_cache [] 0 cfgEx 500 "Server Error" "oops"
      [] 0 credsEx 502 "Bad Gateway" "x" hmiss hmiss2).1⟩

/-! ### Executor lemmas -/

/-- Running `authenticatedFetch` with `retryOn401 = false` is exactly the
single-attempt execution `authenticatedFetchOnce` the source recurses into. -/
theorem authenticatedFetch_no_retry (cf : Except String WorkspaceCredentials)
    (te : Nat → TokenEndpoint) (d : Nat → HttpResponse) (now : Nat)
    (target : WorkspaceOrCredentials) (cache : TokenCache) (tIdx dIdx : Nat) :
    authenticatedFetch cf te d now target false cache tIdx dIdx
      = authenticatedFetchOnce cf te d now target cache tIdx dIdx := by
  unfold authenticatedFetch authenticatedFetchOnce
  simp only [Bool.false_eq_true, and_false, if_false]

/-- A single attempt with pre-resolved credentials performs no credential
fetch. -/
theorem authenticatedFetchOnce_credentials_no_fetch
    (cf : Except String WorkspaceCredentials) (te : Nat → TokenEndpoint)
    (d : Nat → HttpResponse) (now : Nat) (c : WorkspaceCredentials)
    (cache : TokenCache) (tIdx dIdx : Nat) :
    (authenticatedFetchOnce cf te d now (.credentials c) cache tIdx dIdx).credentialFetches
      = 0 := by
  unfold authenticatedFetchOnce
  simp only [resolveTarget]
  cases hb : (getAccessToken cache now (tokenConfigOf c) (te tIdx)).result <;>
    simp [credentialFetchCount]

/-- A single attempt whose token acquisition succeeds returns the dispatched
response as-is and dispatches exactly once. -/
theorem authenticatedFetchOnce_token_ok (cf : Except String WorkspaceCredentials)
    (te : Nat → TokenEndpoint) (d : Nat → HttpResponse) (now : Nat)
    (c : WorkspaceCredentials) (cache : TokenCache) (tIdx dIdx : Nat) (tok : String)
    (hb : (getAccessToken cache now (tokenConfigOf c) (te tIdx)).result = .ok tok) :
    authenticatedFetchOnce cf te d now (.credentials c) cache tIdx dIdx
      = ⟨.ok (d dIdx), (getAccessToken cache now (tokenConfigOf c) (te tIdx)).cache, 0,
          (getAccessToken cache now (tokenConfigOf c) (te tIdx)).tokenRequests,
          [(getAccessToken cache now (tokenConfigOf c) (te tIdx)).cache]⟩ := by
  unfold authenticatedFetchOnce
  simp only [resolveTarget]
  rw [hb]
  simp [credentialFetchCount]

/-- C1: when the first dispatched response is `401` (with `retryOn401` set and
a credentials object supplied), the executor clears the cached token of that
workspace — the entry is gone at the moment the retry is issued — and then
recurses exactly once with `retryOn401 = false` on the very same credentials
without any credential fetch; the retried call's outcome is returned as-is,
and a `retryOn401 = false` run whose token acquisition succeeds returns its
dispatched response even when it is again `401`, dispatching exactly once —
so at most one retry ever occurs. -/
theorem authenticatedFetch_retries_once_after_401
    (cf : Except String WorkspaceCredentials) (te : Nat → TokenEndpoint)
    (d : Nat → HttpResponse) (now : Nat) (c : WorkspaceCredentials)
    (cache : TokenCache) (tIdx dIdx : Nat) (accessToken : String)
    (h401 : (d dIdx).status = 401)
    (hbroker : (getAccessToken cache now (tokenConfigOf c) (te tIdx)).result
      = .ok accessToken) :
    authenticatedFetch cf te d now (.credentials c) true cache tIdx dIdx
      = ⟨(authenticatedFetch cf te d now (.credentials c) false
            (clearCachedToken (getAccessToken cache now (tokenConfigOf c) (te tIdx)).cache
              c.workspace)
            (tIdx + (getAccessToken cache now (tokenConfigOf c) (te tIdx)).tokenRequests)
            (dIdx + 1)).result,
          (authenticatedFetch cf te d now (.credentials c) false
            (clearCachedToken (getAccessToken cache now (tokenConfigOf c) (te tIdx)).cache
              c.workspace)
            (tIdx + (getAccessToken cache now (tokenConfigOf c) (te tIdx)).tokenRequests)
            (dIdx + 1)).cache,
          0,
          (getAccessToken cache now (tokenConfigOf c) (te tIdx)).tokenRequests
            + (authenticatedFetch cf te d now (.credentials c) false
                (clearCachedToken (getAccessToken cache now (tokenConfigOf c) (te tIdx)).cache
                  c.workspace)
                (tIdx + (getAccessToken cache now (tokenConfigOf c) (te tIdx)).tokenRequests)
                (dIdx + 1)).tokenRequests,
          (getAccessToken cache now (tokenConfigOf c) (te tIdx)).cache
            :: (authenticatedFetch cf te d now (.credentials c) false
                (clearCachedToken (getAccessToken cache now (tokenConfigOf c) (te tIdx)).cache
                  c.workspace)
                (tIdx + (getAccessToken cache now (tokenConfigOf c) (te tIdx)).tokenRequests)
                (dIdx + 1)).dispatches⟩
    ∧ lookupToken
        (clearCachedToken (getAccessToken cache now (tokenConfigOf c) (te tIdx)).cache
          c.workspace) c.workspace
      = none
    ∧ (∀ c2 cache2 t2 i2 tok2,
        (getAccessToken cache2 now (tokenConfigOf c2) (te t2)).result = .ok tok2 →
        (authenticatedFetch cf te d now (.credentials c2) false cache2 t2 i2).result
            = .ok (d i2)
        ∧ (authenticatedFetch cf te d now (.credentials c2) false cache2 t2 i2).dispatches.length
            = 1) := by
  refine ⟨?_, lookupToken_clear_self _ _, ?_⟩
  · conv_lhs => unfold authenticatedFetch
    simp only [resolveTarget]
    rw [hbroker]
    simp only [h401]
    rw [authenticatedFetch_no_retry]
    simp [credentialFetchCount,
      authenticatedFetchOnce_credentials_no_fetch cf te d now c]
  · intro c2 cache2 t2 i2 tok2 hb2
    rw [authenticatedFetch_no_retry,
      authenticatedFetchOnce_token_ok cf te d now c2 cache2 t2 i2 tok2 hb2]
    exact ⟨rfl, rfl⟩

/-- Witness for C1: concrete credentials, an empty cache, a token endpoint
that always succeeds, and a tenant API that always answers `401`. -/
theorem authenticatedFetch_retries_once_after_401_witness :
    (dEx401 0).status = 401
    ∧ (getAccessToken [] 0 (tokenConfigOf credsEx) (teEx 0)).result = .ok "tok1"
    ∧ lookupToken
        (clearCachedToken (getAccessToken [] 0 (tokenConfigOf credsEx) (teEx 0)).cache
          credsEx.workspace) credsEx.workspace
      = none :=
  ⟨rfl, rfl,
   (authenticatedFetch_retries_once_after_401 (.ok credsEx) teEx dEx401 0 credsEx []
      0 0 "tok1" rfl rfl).2.1⟩

/-! ### String lemmas -/

/-- Replacing a pattern that does not occur leaves the characters unchanged. -/
theorem replaceAllFuel_not_contained (pat repl : Str) (fuel : Nat) (s : Str)
    (h : strContains s pat = false) : replaceAllFuel pat repl fuel s = s := by
  induction fuel generalizing s with
  | zero => cases s <;> rfl
  | succ n ih =>
    cases s with
    | nil => rfl
    | cons c rest =>
      rw [strContains, Bool.or_eq_false_iff] at h
      rw [replaceAllFuel, if_neg]
      · rw [ih rest h.2]
      · intro hcon
        rw [hcon.2] at h
        exact Bool.false_ne_true h.1.symm

/-- `jsReplaceAll` with an absent pattern is the identity. -/
theorem jsReplaceAll_not_included (s pat repl : String)
    (h : jsIncludes s pat = false) : jsReplaceAll s pat repl = s := by
  unfold jsReplaceAll replaceAllStr
  rw [replaceAllFuel_not_contained _ _ _ _ h]

/-- C5 amended: parameter substitution replaces every `{workspace}` with the
credentials' workspace, then replaces every `{flowId}` with
`flowIds.recurring` exactly when the rewritten URL — the whole URL string,
query included, after workspace substitution — contains the literal substring
`/fetch/`, and with `flowIds.nerv` otherwise; nothing else (in particular not
the HTTP method, which substitution never consults) enters the choice. -/
theorem substituteParams_choice (url : String) (credentials : WorkspaceCredentials) :
    substituteParams url credentials
      = jsReplaceAll (jsReplaceAll url "{workspace}" credentials.workspace) "{flowId}"
          (if jsIncludes (jsReplaceAll url "{workspace}" credentials.workspace) "/fetch/"
            then credentials.flowIds.recurring
            else credentials.flowIds.nerv) := by
  unfold substituteParams
  by_cases h : jsIncludes (jsReplaceAll url "{workspace}" credentials.workspace) "{flowId}" = true
  · simp only [h, if_true]
  · rw [Bool.not_eq_true] at h
    rw [if_neg (by rw [h]; exact Bool.false_ne_true)]
    rw [jsReplaceAll_not_included _ _ _ h]

/-- C5 counterexample: for a URL whose path has no `/fetch/` segment but whose
query string contains `/fetch/`, the code substitutes `{flowId}` with
`flowIds.recurring` (here `R`), though the claim's path-based rule would pick
`flowIds.nerv` (here `N`): the check runs on the whole URL, not on the path. -/
theorem substituteParams_checks_whole_url_not_path :
    substituteParams counterUrlC5 credsEx
      = "https://api.example.com/status/R?redirect=/fetch/home"
    ∧ credsEx.flowIds.recurring = "R"
    ∧ credsEx.flowIds.nerv = "N"
    ∧ urlPathOfClaim counterUrlC5 = "/status/{flowId}"
    ∧ jsIncludes (urlPathOfClaim counterUrlC5) "/fetch/" = false :=
  ⟨rfl, rfl, rfl, rfl, rfl⟩

/-! ### Option-string lemmas -/

/-- When the first operand is truthy, JavaScript `a || b` yields it. -/
theorem jsOrString_truthy_first (a b : Option String) (h : jsTruthy a = true) :
    jsOrString a b = a := by
  cases a with
  | none => simp [jsTruthy] at h
  | some s =>
    simp only [jsTruthy, Bool.not_eq_eq_eq_not, Bool.not_true] at h
    simp [jsOrString, h]

/-- A truthy optional string is exactly `some` of its defaulted value. -/
theorem jsOrDefault_of_truthy (a : Option String) (d : String) (h : jsTruthy a = true) :
    a = some (jsOrDefault a d) := by
  cases a with
  | none => simp [jsTruthy] at h
  | some s =>
    simp only [jsTruthy, Bool.not_eq_eq_eq_not, Bool.not_true] at h
    simp [jsOrDefault, h]

/-! ### C6: fail-open on credential failure -/

/-- C6: when the credential endpoint answers non-success, `authorizeRequest`
returns the original request unchanged — no parameter substitution is applied,
no token is obtained, no authenticated dispatch happens, and the token cache
is untouched. -/
theorem authorizeRequest_fail_open (request : ConsoleRequest)
    (credentialsResponse : CredentialsEndpointResult)
    (cf : Except String WorkspaceCredentials) (te : Nat → TokenEndpoint)
    (d : Nat → HttpResponse) (now : Nat) (cache : TokenCache)
    (hfail : statusOk credentialsResponse.status = false) :
    authorizeRequest request credentialsResponse cf te d now cache
      = (.request request, cache) := by
  unfold authorizeRequest
  rw [hfail]
  rfl

/-- Witness for C6 at a concrete `404` credential response. -/
theorem authorizeRequest_fail_open_witness :
    statusOk credRespFailEx.status = false
    ∧ authorizeRequest reqEx credRespFailEx (.ok credsEx) teEx dEx401 0 []
        = (.request reqEx, []) :=
  ⟨rfl, authorizeRequest_fail_open reqEx credRespFailEx (.ok credsEx) teEx dEx401 0 [] rfl⟩

/-! ### C7: static-configuration lookup order -/

/-- C7 counterexample: with a workspace-scoped token URL set alongside the
global one, `fetchCredentialsFromEnv` returns the global token URL — the
scoped `acme_AUTH_TOKEN_URL` key is never looked up (and likewise for the API
base URL), contradicting the claimed scoped-before-global order for those two
fields. -/
theorem fetchCredentialsFromEnv_ignores_scoped_urls :
    fetchCredentialsFromEnv envC7 "acme"
      = .ok ⟨"cid-scoped", "sec-scoped", "acme", "https://global.example/token",
          defaultApiBaseUrl, ⟨"", ""⟩⟩
    ∧ envC7 "acme_AUTH_TOKEN_URL" = some "https://scoped.example/token"
    ∧ ("https://global.example/token" : String) ≠ "https://scoped.example/token" :=
  ⟨rfl, rfl, by decide⟩

/-- C7 amended: the static source reads workspace-prefixed keys
(lower-cased workspace) before the unscoped global keys for client id, client
secret and the two flow ids — a truthy scoped key always wins for those four —
while the token URL and the API base URL are read from the global keys only
(with fixed defaults); if the combined client id or secret is still missing,
resolution fails with an error naming the workspace. -/
theorem fetchCredentialsFromEnv_lookup_order (env : Env) (workspace : String) :
    (∀ r, fetchCredentialsFromEnv env workspace = .ok r →
        r.clientId
            = jsOrDefault (jsOrString (env (jsToLower workspace ++ "_AUTH_CLIENT_ID"))
                (env "AUTH_CLIENT_ID")) ""
        ∧ r.clientSecret
            = jsOrDefault (jsOrString (env (jsToLower workspace ++ "_AUTH_CLIENT_SECRET"))
                (env "AUTH_CLIENT_SECRET")) ""
        ∧ r.flowIds.nerv
            = jsOrDefault (jsOrString (env (jsToLower workspace ++ "_NERV_FLOW_ID"))
                (env "nerv.flow.id")) ""
        ∧ r.flowIds.recurring
            = jsOrDefault (jsOrString (env (jsToLower workspace ++ "_RECURRING_FLOW_ID"))
                (env "recurring.nerv.flow.id")) ""
        ∧ r.tokenUrl = jsOrDefault (env "AUTH_TOKEN_URL") defaultTokenUrl
        ∧ r.apiBaseUrl = jsOrDefault (env "FACTORY_API") defaultApiBaseUrl)
    ∧ (jsTruthy (env (jsToLower workspace ++ "_AUTH_CLIENT_ID")) = true →
        ∀ r, fetchCredentialsFromEnv env workspace = .ok r →
          env (jsToLower workspace ++ "_AUTH_CLIENT_ID") = some r.clientId)
    ∧ (jsTruthy (env (jsToLower workspace ++ "_AUTH_CLIENT_SECRET")) = true →
        ∀ r, fetchCredentialsFromEnv env workspace = .ok r →
          env (jsToLower workspace ++ "_AUTH_CLIENT_SECRET") = some r.clientSecret)
    ∧ (jsTruthy (jsOrString (env (jsToLower workspace ++ "_AUTH_CLIENT_ID"))
          (env "AUTH_CLIENT_ID")) = false
        ∨ jsTruthy (jsOrString (env (jsToLower workspace ++ "_AUTH_CLIENT_SECRET"))
            (env "AUTH_CLIENT_SECRET")) = false →
        fetchCredentialsFromEnv env workspace
          = .error ("Credentials not found for workspace: " ++ workspace)) := by
  have hok : ∀ r, fetchCredentialsFromEnv env workspace = .ok r →
      r = { clientId := jsOrDefault (jsOrString (env (jsToLower workspace ++ "_AUTH_CLIENT_ID"))
              (env "AUTH_CLIENT_ID")) ""
            clientSecret := jsOrDefault (jsOrString (env (jsToLower workspace ++ "_AUTH_CLIENT_SECRET"))
              (env "AUTH_CLIENT_SECRET")) ""
            workspace := workspace
            tokenUrl := jsOrDefault (env "AUTH_TOKEN_URL") defaultTokenUrl
            apiBaseUrl := jsOrDefault (env "FACTORY_API") defaultApiBaseUrl
            flowIds := { nerv := jsOrDefault (jsOrString (env (jsToLower workspace ++ "_NERV_FLOW_ID"))
                          (env "nerv.flow.id")) ""
                         recurring := jsOrDefault (jsOrString (env (jsToLower workspace ++ "_RECURRING_FLOW_ID"))
                          (env "recurring.nerv.flow.id")) "" } } := by
    intro r h
    unfold fetchCredentialsFromEnv at h
    dsimp only [] at h
    split at h
    · exact absurd h (by simp)
    · injection h with h
      exact h.symm
  refine ⟨?_, ?_, ?_, ?_⟩
  · intro r h
    rw [hok r h]
    exact ⟨rfl, rfl, rfl, rfl, rfl, rfl⟩
  · intro htru r h
    rw [hok r h]
    simp only [jsOrString_truthy_first _ _ htru]
    exact jsOrDefault_of_truthy _ _ htru
  · intro htru r h
    rw [hok r h]
    simp only [jsOrString_truthy_first _ _ htru]
    exact jsOrDefault_of_truthy _ _ htru
  · intro h
    unfold fetchCredentialsFromEnv
    rcases h with h | h <;> simp [h]

/-- Witness for the amended C7: scoped client id wins over the global one. -/
theorem fetchCredentialsFromEnv_lookup_order_witness :
    jsTruthy (envC7 (jsToLower "acme" ++ "_AUTH_CLIENT_ID")) = true
    ∧ envC7 (jsToLower "acme" ++ "_AUTH_CLIENT_ID") = some "cid-scoped" := by
  have h : fetchCredentialsFromEnv envC7 "acme"
      = .ok ⟨"cid-scoped", "sec-scoped", "acme", "https://global.example/token",
          defaultApiBaseUrl, ⟨"", ""⟩⟩ := rfl
  have := (fetchCredentialsFromEnv_lookup_order envC7 "acme").2.1 rfl _ h
  exact ⟨rfl, this⟩

/-! ### C8: identity-provider failures are soft -/

/-- C8: every failure of the Keycloak source — provider not configured, admin
token request thrown or non-success, client lookup thrown or non-success, no
client record, required attributes missing — makes
`fetchCredentialsFromKeycloak` return `none`, never an error; and whenever it
returns `none`, `fetchCredentials` is exactly the static-configuration
fallback. -/
theorem fetchCredentials_keycloak_soft_failure (env : Env) (workspace : String)
    (adminTokenFetch : FetchResult String)
    (clientsFetch : FetchResult (List ClientRecord)) :
    (fetchCredentialsFromKeycloak env workspace adminTokenFetch clientsFetch = none →
      fetchCredentials env workspace adminTokenFetch clientsFetch
        = fetchCredentialsFromEnv env workspace)
    ∧ (jsTruthy (env "KEYCLOAK_URL") = false ∨ jsTruthy (env "KEYCLOAK_REALM") = false
        ∨ jsTruthy (env "KEYCLOAK_CLIENT_ID") = false
        ∨ jsTruthy (env "KEYCLOAK_CLIENT_SECRET") = false →
        fetchCredentialsFromKeycloak env workspace adminTokenFetch clientsFetch = none)
    ∧ (∀ message, adminTokenFetch = .thrown message →
        fetchCredentialsFromKeycloak env workspace adminTokenFetch clientsFetch = none)
    ∧ (∀ status adminToken, adminTokenFetch = .completed status adminToken →
        statusOk status = false →
        fetchCredentialsFromKeycloak env workspace adminTokenFetch clientsFetch = none)
    ∧ (∀ message, clientsFetch = .thrown message →
        fetchCredentialsFromKeycloak env workspace adminTokenFetch clientsFetch = none)
    ∧ (∀ status clients, clientsFetch = .completed status clients →
        statusOk status = false →
        fetchCredentialsFromKeycloak env workspace adminTokenFetch clientsFetch = none)
    ∧ (∀ status, clientsFetch = .completed status [] →
        fetchCredentialsFromKeycloak env workspace adminTokenFetch clientsFetch = none)
    ∧ (∀ status client rest, clientsFetch = .completed status (client :: rest) →
        jsTruthy (jsOrString (client.attributes "AUTH_CLIENT_ID")
          (client.attributes "auth_client_id")) = false
        ∨ jsTruthy (jsOrString (client.attributes "AUTH_CLIENT_SECRET")
            (client.attributes "auth_client_secret")) = false →
        fetchCredentialsFromKeycloak env workspace adminTokenFetch clientsFetch = none) := by
  refine ⟨?_, ?_, ?_, ?_, ?_, ?_, ?_, ?_⟩
  · intro h
    unfold fetchCredentials
    rw [h]
  · intro h
    unfold fetchCredentialsFromKeycloak
    rcases h with h | h | h | h <;> simp [h]
  · intro message hm
    subst hm
    unfold fetchCredentialsFromKeycloak
    split
    · rfl
    · rfl
  · intro status adminToken hm hstatus
    subst hm
    unfold fetchCredentialsFromKeycloak
    split
    · rfl
    · simp [hstatus]
  · intro message hm
    subst hm
    unfold fetchCredentialsFromKeycloak
    split
    · rfl
    · cases adminTokenFetch with
      | thrown _ => rfl
      | completed ts tok =>
        by_cases hts : statusOk ts <;> simp [hts]
  · intro status clients hm hstatus
    subst hm
    unfold fetchCredentialsFromKeycloak
    split
    · rfl
    · cases adminTokenFetch with
      | thrown _ => rfl
      | completed ts tok =>
        by_cases hts : statusOk ts <;> simp [hts, hstatus]
  · intro status hm
    subst hm
    unfold fetchCredentialsFromKeycloak
    split
    · rfl
    · cases adminTokenFetch with
      | thrown _ => rfl
      | completed ts tok =>
        by_cases hts : statusOk ts <;> by_cases hcs : statusOk status <;> simp [hts, hcs]
  · intro status client rest hm hattr
    subst hm
    unfold fetchCredentialsFromKeycloak
    split
    · rfl
    · cases adminTokenFetch with
      | thrown _ => rfl
      | completed ts tok =>
        rcases hattr with hattr | hattr <;>
          by_cases hts : statusOk ts <;> by_cases hcs : statusOk status <;>
            simp [hts, hcs, hattr]

/-- Witness for C8: Keycloak configured but unreachable (the admin token fetch
throws); resolution falls through to the static configuration and succeeds
there. -/
theorem fetchCredentials_keycloak_soft_failure_witness :
    (FetchResult.thrown "ECONNREFUSED" : FetchResult String) = .thrown "ECONNREFUSED"
    ∧ fetchCredentials envC8 "acme" (.thrown "ECONNREFUSED") clientsFetchEx
        = fetchCredentialsFromEnv envC8 "acme"
    ∧ fetchCredentialsFromEnv envC8 "acme"
        = .ok ⟨"cid", "cs", "acme", defaultTokenUrl, defaultApiBaseUrl, ⟨"", ""⟩⟩ := by
  have hkc := (fetchCredentials_keycloak_soft_failure envC8 "acme"
    (.thrown "ECONNREFUSED") clientsFetchEx).2.2.1 "ECONNREFUSED" rfl
  exact ⟨rfl,
    (fetchCredentials_keycloak_soft_failure envC8 "acme"
      (.thrown "ECONNREFUSED") clientsFetchEx).1 hkc, rfl⟩

/-! ### C9: shape of the token-exchange requests -/

/-- C9 counterexample: the Credential Resolver's administrative-token request
carries no `Authorization` header at all, and its body is not
`grant_type=client_credentials` — the client id and secret travel in the form
body instead of a Basic header. -/
theorem adminTokenRequest_no_basic_auth :
    lookupHeader (adminTokenRequest "https://kc.example" "realm1" "admin-cli" "topsecret")
        "Authorization" = none
    ∧ (adminTokenRequest "https://kc.example" "realm1" "admin-cli" "topsecret").body
        = "grant_type=client_credentials&client_id=admin-cli&client_secret=topsecret"
    ∧ ("grant_type=client_credentials&client_id=admin-cli&client_secret=topsecret" : String)
        ≠ "grant_type=client_credentials" :=
  ⟨rfl, rfl, by decide⟩

/-- C9 amended: both token brokers issue `POST` requests to the token URL with
`Authorization: Basic base64(clientId:clientSecret)`, form content type and
body `grant_type=client_credentials`; the administrative-token request of the
Keycloak source is a `POST` with form content type but has no `Authorization`
header — it passes `grant_type`, `client_id` and `client_secret` in the
URL-encoded body. -/
theorem tokenRequests_shape (config : TokenConfig) (credentials : WorkspaceCredentials)
    (keycloakUrl keycloakRealm keycloakClientId keycloakClientSecret : String) :
    (tokenExchangeRequest config).method = "POST"
    ∧ lookupHeader (tokenExchangeRequest config) "Authorization"
        = some ("Basic " ++ base64Encode (config.clientId ++ ":" ++ config.clientSecret))
    ∧ lookupHeader (tokenExchangeRequest config) "Content-Type"
        = some "application/x-www-form-urlencoded"
    ∧ (tokenExchangeRequest config).body = "grant_type=client_credentials"
    ∧ (serverTokenRequest credentials).method = "POST"
    ∧ lookupHeader (serverTokenRequest credentials) "Authorization"
        = some ("Basic " ++ base64Encode (credentials.clientId ++ ":" ++ credentials.clientSecret))
    ∧ lookupHeader (serverTokenRequest credentials) "Content-Type"
        = some "application/x-www-form-urlencoded"
    ∧ (serverTokenRequest credentials).body = "grant_type=client_credentials"
    ∧ (adminTokenRequest keycloakUrl keycloakRealm keycloakClientId keycloakClientSecret).method
        = "POST"
    ∧ lookupHeader (adminTokenRequest keycloakUrl keycloakRealm keycloakClientId keycloakClientSecret)
        "Content-Type" = some "application/x-www-form-urlencoded"
    ∧ lookupHeader (adminTokenRequest keycloakUrl keycloakRealm keycloakClientId keycloakClientSecret)
        "Authorization" = none
    ∧ (adminTokenRequest keycloakUrl keycloakRealm keycloakClientId keycloakClientSecret).body
        = urlSearchParamsEncode
            [("grant_type", "client_credentials"),
             ("client_id", keycloakClientId),
             ("client_secret", keycloakClientSecret)] :=
  ⟨rfl, rfl, rfl, rfl, rfl, rfl, rfl, rfl, rfl, rfl, rfl, rfl⟩

end DocsProxy
